import Mathlib

/-!
Shallow embedding of the Beurer CosyNight integration
(`custom_components/beurer_cosynight`): the authenticated HTTP client
(`beurer_cosynight.py`) and the adaptive polling coordinator
(`coordinator.py`).  Network I/O is modelled by passing in the statuses
and bodies of the responses the server would return; wall-clock time is
passed explicitly (epoch seconds for instants, seconds-of-day for
times of day).  Python exceptions are modelled by explicit outcome
values.
-/

namespace Beurer

/-- A JSON scalar, as much of JSON as the token file uses. -/
inductive JVal where
  | str (s : String)
  | int (n : Int)
deriving Repr, DecidableEq

/-- The `_Token` dataclass of `beurer_cosynight.py` (eight fields, in
declaration order). -/
structure Token where
  access_token : String
  expires : String
  expires_in : Int
  issued : String
  refresh_token : String
  token_type : String
  user_email : String
  user_id : String
deriving Repr, DecidableEq

/-- Association-list lookup, the semantics of `d[k]` on a Python dict
whose keys are unique. -/
def alookup {α : Type} : List (String × α) → String → Option α
  | [], _ => none
  | (k, v) :: rest, k2 => if k = k2 then some v else alookup rest k2

/-- `dataclasses.asdict` on a `_Token`, as serialized by `json.dump` in
`_update_token`. -/
def tokenToJson (t : Token) : List (String × JVal) :=
  [("access_token", JVal.str t.access_token),
   ("expires", JVal.str t.expires),
   ("expires_in", JVal.int t.expires_in),
   ("issued", JVal.str t.issued),
   ("refresh_token", JVal.str t.refresh_token),
   ("token_type", JVal.str t.token_type),
   ("user_email", JVal.str t.user_email),
   ("user_id", JVal.str t.user_id)]

/-- Extract a JSON string, `none` on absence or type mismatch. -/
def jstr : Option JVal → Option String
  | some (JVal.str s) => some s
  | _ => none

/-- Extract a JSON integer, `none` on absence or type mismatch. -/
def jint : Option JVal → Option Int
  | some (JVal.int n) => some n
  | _ => none

/-- `_Token(**json.load(f))` in `_load_token`: constructing the dataclass
from a parsed JSON object.  A missing field, a field of the wrong type,
or an extra field raises `TypeError` in Python, modelled as `none`. -/
def tokenFromJson (l : List (String × JVal)) : Option Token :=
  if l.length = 8 then
    match jstr (alookup l "access_token"), jstr (alookup l "expires"),
          jint (alookup l "expires_in"), jstr (alookup l "issued"),
          jstr (alookup l "refresh_token"), jstr (alookup l "token_type"),
          jstr (alookup l "user_email"), jstr (alookup l "user_id") with
    | some a, some e, some ei, some i, some r, some tt, some ue, some ui =>
        some ⟨a, e, ei, i, r, tt, ue, ui⟩
    | _, _, _, _, _, _, _, _ => none
  else none

/-- The token file on disk: `none` = file missing (`os.path.exists`
false); `some none` = file present but not valid JSON (`json.load`
raises); `some (some l)` = a JSON object with fields `l`. -/
def TokenFile := Option (Option (List (String × JVal)))

/-- Mutable state of a `BeurerCosyNight` client instance. -/
structure ClientState where
  token : Option Token
  tokenLoaded : Bool
  username : Option String
  password : Option String
  file : Option (Option (List (String × JVal)))
deriving Repr, DecidableEq

/-- `_load_token`: lazy, memoized load of the token from the file. Any
exception while reading or constructing the token is caught and logged,
leaving the in-memory token as it was. -/
def loadTokenSt (st : ClientState) : ClientState :=
  if st.tokenLoaded then st
  else
    let st1 := { st with tokenLoaded := true }
    match st1.file with
    | none => st1
    | some none => st1
    | some (some l) =>
        match tokenFromJson l with
        | some t => { st1 with token := some t }
        | none => st1

/-- `_update_token` applied to a response whose body decodes to token
`t`: sets the in-memory token and persists it to the file (a write
failure would be swallowed; the successful write is modelled). -/
def updateTokenSt (st : ClientState) (t : Token) : ClientState :=
  { st with token := some t, file := some (some (tokenToJson t)) }

/-- Outcome of `authenticate` / `_do_authenticate`: normal return,
`AuthenticationError`, or the generic `Error` from `raise_for_status`. -/
inductive AuthOutcome where
  | ok
  | authError
  | genericError
deriving Repr, DecidableEq

/-- The server's answer to a `POST /token` grant: its HTTP status, and
the token its body decodes to when the grant succeeds. -/
structure GrantEnv where
  status : Nat
  tok : Token
deriving Repr

/-- `_do_authenticate(username, password)`: POST a password grant.
`401` raises `AuthenticationError`; `raise_for_status` raises the
generic error on any other 4xx/5xx status; otherwise the token from the
response body is stored and persisted. -/
def doAuthenticateSt (st : ClientState) (env : GrantEnv) : ClientState × AuthOutcome :=
  if env.status = 401 then (st, AuthOutcome.authError)
  else if 400 ≤ env.status then (st, AuthOutcome.genericError)
  else (updateTokenSt st env.tok, AuthOutcome.ok)

/-- `authenticate(username, password)`: store the credentials, load any
stored token, and only when no token is present perform the password
grant.  The final `Bool` records whether a password-grant request was
made. -/
def authenticateSt (st : ClientState) (username password : String)
    (env : GrantEnv) : ClientState × AuthOutcome × Bool :=
  let st1 := { st with username := some username, password := some password }
  let st2 := loadTokenSt st1
  match st2.token with
  | some _ => (st2, AuthOutcome.ok, false)
  | none =>
      let (st3, out) := doAuthenticateSt st2 env
      (st3, out, true)

/-- Network events issued by `_make_authenticated_request`, in order. -/
inductive Ev where
  | initialReq
  | refreshGrant
  | passwordGrant
  | retryReq
deriving Repr, DecidableEq

/-- Outcome of `_make_authenticated_request`: a returned response (with
its status), `AuthenticationError`, or `Error('Not authenticated')`. -/
inductive ReqOutcome where
  | resp (status : Nat)
  | authError
  | notAuthenticated
deriving Repr, DecidableEq

/-- The server's behaviour during one `_make_authenticated_request`
call: status of the initial request; status and body of a refresh
grant, were one issued; status and body of a password grant, were one
issued; and the status of the retried original request on each recovery
path. -/
structure NetEnv where
  initialStatus : Nat
  refreshStatus : Nat
  refreshTok : Token
  reauthStatus : Nat
  reauthTok : Token
  retryAfterRefreshStatus : Nat
  retryAfterReauthStatus : Nat
deriving Repr

/-- `self._username and self._password` — Python truthiness: both must
be present and non-empty. -/
def credsPresent (st : ClientState) : Bool :=
  match st.username, st.password with
  | some u, some p => u ≠ "" && p ≠ ""
  | _, _ => false

/-- `_make_authenticated_request`.  `parseTime` models
`datetime.strptime` on the token's `expires` field (`none` = the parse
raises); `now` is `datetime.now(utc)` in epoch seconds.  Returns the
final client state, the trace of network events, and the outcome. -/
def makeAuthenticatedRequest (parseTime : String → Option Nat) (now : Nat)
    (st : ClientState) (env : NetEnv) : ClientState × List Ev × ReqOutcome :=
  let st0 := loadTokenSt st
  match st0.token with
  | none => (st0, [], ReqOutcome.notAuthenticated)
  | some tok =>
      if env.initialStatus ≠ 401 then
        (st0, [Ev.initialReq], ReqOutcome.resp env.initialStatus)
      else
        -- try: check local expiry and, if expired, attempt a refresh grant
        let refreshStep : ClientState × List Ev × Option ReqOutcome :=
          match parseTime tok.expires with
          | some e =>
              if e < now then
                if env.refreshStatus = 200 then
                  (updateTokenSt st0 env.refreshTok,
                   [Ev.refreshGrant, Ev.retryReq],
                   some (ReqOutcome.resp env.retryAfterRefreshStatus))
                else
                  (st0, [Ev.refreshGrant], none)
              else (st0, [], none)
          | none => (st0, [], none)
        match refreshStep with
        | (st1, evs1, some out) => (st1, Ev.initialReq :: evs1, out)
        | (st1, evs1, none) =>
            -- refresh failed or token was not locally expired: full re-auth
            if credsPresent st1 then
              match doAuthenticateSt st1
                  { status := env.reauthStatus, tok := env.reauthTok } with
              | (st2, AuthOutcome.ok) =>
                  (st2, Ev.initialReq :: evs1 ++ [Ev.passwordGrant, Ev.retryReq],
                   ReqOutcome.resp env.retryAfterReauthStatus)
              | (st2, _) =>
                  -- the exception from _do_authenticate is caught and logged
                  ({ st2 with token := none },
                   Ev.initialReq :: evs1 ++ [Ev.passwordGrant],
                   ReqOutcome.authError)
            else
              ({ st1 with token := none }, Ev.initialReq :: evs1,
               ReqOutcome.authError)

/-- The `Status` dataclass (fields in declaration order). -/
structure Status where
  active : Bool
  bodySetting : Int
  feetSetting : Int
  heartbeat : Int
  id : String
  name : String
  requiresUpdate : Bool
  timer : Int
deriving Repr, DecidableEq

/-- The `Device` dataclass (fields in declaration order). -/
structure Device where
  active : Bool
  id : String
  name : String
  requiresUpdate : Bool
deriving Repr, DecidableEq

/-- Mutable state of a `BeurerCoordinator`: the cached status map
`self.data` (device id → last-known `Status`), the last-command
timestamp (epoch seconds), the active-polling flag, the configured
options, and the currently applied `update_interval` (seconds).
Times of day (`peak_hours_start`/`peak_hours_end` and the current
time) are seconds since midnight, preserving Python `time` order. -/
structure CoordState where
  data : List (String × Status)
  lastCommandTime : Option Nat
  activePollingEnabled : Bool
  peakHoursStart : Nat
  peakHoursEnd : Nat
  offpeakIntervalMinutes : Nat
  peakIntervalMinutes : Nat
  activeBlanketEnabled : Bool
  updateInterval : Nat
deriving Repr, DecidableEq

/-- `_is_in_peak_hours(current_time)` on a coordinator configured with
window `(start, end_)`, all as seconds since midnight. -/
def isInPeakHours (start end_ t : Nat) : Bool :=
  if start > end_ then
    decide (t ≥ start) || decide (t < end_)
  else
    decide (start ≤ t) && decide (t < end_)

/-- `_is_blanket_active(device_status)`: timer running or any zone
heating.  (A `Status` object is always truthy in Python, so the
`if not device_status` guard never fires for cached entries.) -/
def isBlanketActive (s : Status) : Bool :=
  decide (s.timer > 0) || decide (s.bodySetting > 0) || decide (s.feetSetting > 0)

/-- The `any_active` scan of `_calculate_update_interval` over
`self.data`. -/
def anyActiveData (d : List (String × Status)) : Bool :=
  d.any (fun p => isBlanketActive p.2)

/-- `_get_progressive_active_interval` (result in seconds): 60s default
with no recorded command, else 15s / 30s / 60s by elapsed seconds since
the last command (`< 60` / `< 300` / otherwise). -/
def progressiveActiveInterval (lastCommandTime : Option Nat) (now : Nat) : Nat :=
  match lastCommandTime with
  | none => 60
  | some tc =>
      let elapsed : Int := (now : Int) - (tc : Int)
      if elapsed < 60 then 15
      else if elapsed < 300 then 30
      else 60

/-- `_calculate_update_interval` at epoch time `now`: returns the
chosen interval (seconds) and the coordinator state after the method's
side effects on `_active_polling_enabled` and `_last_command_time`. -/
def calculateUpdateInterval (st : CoordState) (now : Nat) : Nat × CoordState :=
  let currentTime := now % 86400
  let anyActive := anyActiveData st.data
  if anyActive && st.activeBlanketEnabled then
    let st1 := if st.activePollingEnabled then st
               else { st with activePollingEnabled := true }
    (progressiveActiveInterval st1.lastCommandTime now, st1)
  else
    let st1 := if st.activePollingEnabled && !anyActive then
                 { st with activePollingEnabled := false, lastCommandTime := none }
               else st
    if isInPeakHours st1.peakHoursStart st1.peakHoursEnd currentTime then
      (st1.peakIntervalMinutes * 60, st1)
    else
      (st1.offpeakIntervalMinutes * 60, st1)

/-- Python dict assignment `data[device.id] = status`: replace the
entry if the key is present, else append. -/
def dictInsert : List (String × Status) → String → Status → List (String × Status)
  | [], k, v => [(k, v)]
  | (k1, v1) :: rest, k, v =>
      if k1 = k then (k, v) :: rest else (k1, v1) :: dictInsert rest k v

/-- The per-device loop of `_async_update_data`, building the fresh
`data` dict.  `cache` is `self.data` (the previous cycle's map);
`fetch` models `hub.get_status` per device id (`Except.error` = the
call raised).  On a failed fetch the previous cached value is reused if
one exists; otherwise `UpdateFailed` is raised, carrying the device id. -/
def collectData (cache : List (String × Status))
    (fetch : String → Except Unit Status) :
    List Device → List (String × Status) → Except String (List (String × Status))
  | [], acc => Except.ok acc
  | d :: rest, acc =>
      match fetch d.id with
      | Except.ok s => collectData cache fetch rest (dictInsert acc d.id s)
      | Except.error _ =>
          match alookup cache d.id with
          | some s => collectData cache fetch rest (dictInsert acc d.id s)
          | none => Except.error d.id

/-- One full refresh cycle: `_async_update_data` plus the base
`DataUpdateCoordinator`'s handling of its result.  On `UpdateFailed`
the coordinator state (cached data, interval) is left unchanged and the
cycle is reported failed (`false`).  On success the next interval is
recomputed once, at the end — note `self.data` still holds the
previous cycle's statuses when `_calculate_update_interval` runs,
because the fresh map is only installed when the method returns. -/
def refreshCycle (st : CoordState) (devices : List Device)
    (fetch : String → Except Unit Status) (now : Nat) : CoordState × Bool :=
  match collectData st.data fetch devices [] with
  | Except.error _ => (st, false)
  | Except.ok newData =>
      let (newInterval, st1) := calculateUpdateInterval st now
      let st2 := if newInterval ≠ st1.updateInterval then
                   { st1 with updateInterval := newInterval }
                 else st1
      ({ st2 with data := newData }, true)

/-- `notify_command_sent()`: record the current time as the
last-command timestamp and schedule an immediate out-of-band refresh
(the returned `Bool` records that the refresh task was created). -/
def notifyCommandSent (st : CoordState) (now : Nat) : CoordState × Bool :=
  ({ st with lastCommandTime := some now }, true)

/-! ### Concrete sample values used by witnesses and counterexamples -/

/-- A sample stored token. -/
def sampleToken : Token :=
  ⟨"acc", "Mon, 01 Jan 2024 00:00:00 GMT", 3599,
   "Sun, 31 Dec 2023 23:00:00 GMT", "ref", "bearer", "u@example.com", "uid"⟩

/-- A second sample token, as issued by a refresh or re-auth grant. -/
def sampleToken2 : Token :=
  ⟨"acc2", "Tue, 02 Jan 2024 00:00:00 GMT", 3599,
   "Mon, 01 Jan 2024 23:00:00 GMT", "ref2", "bearer", "u@example.com", "uid"⟩

/-- A cached status with the body zone heating and the timer running. -/
def sampleStatusActive : Status := ⟨true, 5, 0, 12, "d1", "Blanket", false, 1800⟩

/-- A cached status with timer and both zones at zero. -/
def sampleStatusIdle : Status := ⟨true, 0, 0, 12, "d1", "Blanket", false, 0⟩

/-- A coordinator: one active cached device, no command recorded,
window 20:00–08:00, off-peak 10 min, peak 5 min, aggressive polling
enabled, current interval 10 min. -/
def sampleCoord : CoordState :=
  ⟨[("d1", sampleStatusActive)], none, false, 72000, 28800, 10, 5, true, 600⟩

/-- The device whose id matches the sample cached status. -/
def sampleDevice : Device := ⟨true, "d1", "Blanket", false⟩

/-- A client whose token is loaded and whose credentials are stored. -/
def sampleClient : ClientState :=
  ⟨some sampleToken, true, some "u@example.com", some "pw", none⟩

/-- A second device, with no cached status under `sampleCoord`. -/
def sampleDevice2 : Device := ⟨true, "d2", "Blanket2", false⟩

/-- A coordinator with the sample active device cached, a command
recorded at t = 990, and a 10-minute interval currently applied. -/
def sampleCoordCmd : CoordState :=
  ⟨[("d1", sampleStatusActive)], some 990, false, 72000, 28800, 10, 5, true, 600⟩

/-- A coordinator that had entered active polling (flag set, command
recorded) whose only cached status is now idle. -/
def sampleCoordIdleFlag : CoordState :=
  ⟨[("d1", sampleStatusIdle)], some 500, true, 72000, 28800, 10, 5, true, 60⟩

/-- A fetch behaviour: the call for `"d1"` raises, any other succeeds
with the idle status. -/
def fetchSample : String → Except Unit Status :=
  fun i => if i = "d1" then Except.error () else Except.ok sampleStatusIdle

/-- A fetch behaviour where every call raises. -/
def fetchFailAll : String → Except Unit Status := fun _ => Except.error ()

/-- A fresh client with no token, no credentials, and no token file. -/
def emptyClient : ClientState := ⟨none, false, none, none, none⟩

/-- A fresh client whose token file holds the serialized sample token. -/
def sampleFileClient : ClientState :=
  ⟨none, false, none, none, some (some (tokenToJson sampleToken))⟩

/-! ### Helper lemmas -/

/-- `anyActiveData` is the existence of an active cached status. -/
theorem anyActiveData_eq_true_iff (d : List (String × Status)) :
    anyActiveData d = true ↔
      ∃ p ∈ d, p.2.timer > 0 ∨ p.2.bodySetting > 0 ∨ p.2.feetSetting > 0 := by
  simp [anyActiveData, isBlanketActive, List.any_eq_true, or_assoc]

/-- Lookup after a Python-dict insertion. -/
theorem alookup_dictInsert (m : List (String × Status)) (k k2 : String) (v : Status) :
    alookup (dictInsert m k v) k2 = if k = k2 then some v else alookup m k2 := by
  induction m with
  | nil => simp [dictInsert, alookup]
  | cons hd tl ih =>
      obtain ⟨k1, v1⟩ := hd
      by_cases h1 : k1 = k
      · subst h1
        by_cases h2 : k1 = k2 <;> simp [dictInsert, alookup, h2]
      · by_cases h2 : k1 = k2
        · subst h2
          have : ¬ k = k1 := fun h => h1 h.symm
          simp [dictInsert, alookup, h1, this]
        · simp [dictInsert, alookup, h1, h2, ih]

/-- A key belonging to none of the remaining devices is untouched by the
rest of the collection loop. -/
theorem collectData_ok_lookup_notmem (cache : List (String × Status))
    (fetch : String → Except Unit Status) (devices : List Device) :
    ∀ acc res k, collectData cache fetch devices acc = Except.ok res →
      k ∉ devices.map Device.id → alookup res k = alookup acc k := by
  induction devices with
  | nil =>
      intro acc res k h _
      simp [collectData] at h
      subst h; rfl
  | cons d rest ih =>
      intro acc res k h hk
      rw [List.map_cons] at hk
      have hk1 : ¬ (d.id = k) := fun he => hk (by simp [he])
      have hk2 : k ∉ rest.map Device.id := fun hm => hk (by simp [hm])
      cases hf : fetch d.id with
      | ok s =>
          simp only [collectData, hf] at h
          rw [ih (dictInsert acc d.id s) res k h hk2, alookup_dictInsert, if_neg hk1]
      | error e =>
          cases hc : alookup cache d.id with
          | some s =>
              simp only [collectData, hf, hc] at h
              rw [ih (dictInsert acc d.id s) res k h hk2, alookup_dictInsert, if_neg hk1]
          | none =>
              simp only [collectData, hf, hc] at h
              exact absurd h (by simp)

/-- Per-device content of a successful collection loop: the fresh fetch
result, or the prior cached value when the fetch failed. -/
theorem collectData_ok_lookup_mem (cache : List (String × Status))
    (fetch : String → Except Unit Status) (devices : List Device) :
    ∀ acc res d, (devices.map Device.id).Nodup → d ∈ devices →
      collectData cache fetch devices acc = Except.ok res →
      alookup res d.id = (match fetch d.id with
                          | Except.ok s => some s
                          | Except.error _ => alookup cache d.id) := by
  induction devices with
  | nil => intro acc res d _ hd; exact absurd hd (List.not_mem_nil d)
  | cons hd rest ih =>
      intro acc res d hnd hmem h
      rw [List.map_cons, List.nodup_cons] at hnd
      have hnd1 : hd.id ∉ rest.map Device.id := hnd.1
      have hnd2 : (rest.map Device.id).Nodup := hnd.2
      rcases List.mem_cons.mp hmem with heq | hrest
      · subst heq
        cases hf : fetch d.id with
        | ok s =>
            simp only [collectData, hf] at h
            have := collectData_ok_lookup_notmem cache fetch rest
              (dictInsert acc d.id s) res d.id h hnd1
            show alookup res d.id = some s
            rw [this, alookup_dictInsert, if_pos rfl]
        | error e =>
            cases hc : alookup cache d.id with
            | some s =>
                simp only [collectData, hf, hc] at h
                have := collectData_ok_lookup_notmem cache fetch rest
                  (dictInsert acc d.id s) res d.id h hnd1
                rw [this, alookup_dictInsert, if_pos rfl]
            | none =>
                simp only [collectData, hf, hc] at h
                exact absurd h (by simp)
      · cases hf : fetch hd.id with
        | ok s =>
            simp only [collectData, hf] at h
            exact ih (dictInsert acc hd.id s) res d hnd2 hrest h
        | error e =>
            cases hc : alookup cache hd.id with
            | some s =>
                simp only [collectData, hf, hc] at h
                exact ih (dictInsert acc hd.id s) res d hnd2 hrest h
            | none =>
                simp only [collectData, hf, hc] at h
                exact absurd h (by simp)

/-- A device whose fetch fails with no prior cached value makes the
collection loop raise `UpdateFailed`. -/
theorem collectData_err (cache : List (String × Status))
    (fetch : String → Except Unit Status) (devices : List Device) :
    ∀ acc d, d ∈ devices → fetch d.id = Except.error () →
      alookup cache d.id = none →
      ∃ e, collectData cache fetch devices acc = Except.error e := by
  induction devices with
  | nil => intro acc d hd; exact absurd hd (List.not_mem_nil d)
  | cons hd rest ih =>
      intro acc d hmem hf hc
      rcases List.mem_cons.mp hmem with heq | hrest
      · subst heq
        refine ⟨d.id, ?_⟩
        simp only [collectData, hf, hc]
      · simp only [collectData]
        cases hf2 : fetch hd.id with
        | ok s => exact ih (dictInsert acc hd.id s) d hrest hf hc
        | error e =>
            cases hc2 : alookup cache hd.id with
            | some s => exact ih (dictInsert acc hd.id s) d hrest hf hc
            | none => exact ⟨hd.id, rfl⟩

/-- With no active cached status and the active-polling flag off,
`_calculate_update_interval` picks the peak/off-peak tier and leaves
the coordinator state unchanged. -/
theorem calcInterval_inactive (st : CoordState) (now : Nat)
    (ha : anyActiveData st.data = false) (hp : st.activePollingEnabled = false) :
    calculateUpdateInterval st now =
      ((if isInPeakHours st.peakHoursStart st.peakHoursEnd (now % 86400) = true
        then st.peakIntervalMinutes * 60 else st.offpeakIntervalMinutes * 60), st) := by
  by_cases h : isInPeakHours st.peakHoursStart st.peakHoursEnd (now % 86400) = true <;>
    simp [calculateUpdateInterval, ha, hp, h]

/-- With an active cached status and aggressive polling enabled, the
chosen interval is the progressive one and the last-command timestamp
is untouched. -/
theorem calcInterval_active (st : CoordState) (now : Nat)
    (ha : anyActiveData st.data = true) (he : st.activeBlanketEnabled = true) :
    (calculateUpdateInterval st now).1 =
        progressiveActiveInterval st.lastCommandTime now ∧
    (calculateUpdateInterval st now).2.lastCommandTime = st.lastCommandTime := by
  cases hap : st.activePollingEnabled <;>
    simp [calculateUpdateInterval, ha, he, hap]

/-! ### The claims -/

/-- C2: for a peak window with `start > end` (overnight wraparound) the
peak-hours predicate holds exactly when `t ≥ start` or `t < end`; for a
window with `start ≤ end` it holds exactly when `start ≤ t < end`. -/
theorem c2_peak_window_semantics (start end_ t : Nat) :
    isInPeakHours start end_ t = true ↔
      (if start > end_ then t ≥ start ∨ t < end_ else start ≤ t ∧ t < end_) := by
  unfold isInPeakHours
  split <;> simp

/-- C3: when some cached status has `timer > 0 ∨ bodySetting > 0 ∨
feetSetting > 0` and aggressive active polling is enabled, the computed
interval is 15s for elapsed time under 60s since the last command, 30s
under 300s, 60s otherwise, and 60s when no command is recorded; with
aggressive polling disabled the same state falls through to the
peak/off-peak tiers. -/
theorem c3_active_tier_intervals (st : CoordState) (now : Nat)
    (ha : ∃ p ∈ st.data, p.2.timer > 0 ∨ p.2.bodySetting > 0 ∨ p.2.feetSetting > 0)
    (he : st.activeBlanketEnabled = true) :
    (calculateUpdateInterval st now).1 =
      (match st.lastCommandTime with
       | none => 60
       | some tc =>
           if (now : Int) - (tc : Int) < 60 then 15
           else if (now : Int) - (tc : Int) < 300 then 30
           else 60) ∧
    (calculateUpdateInterval { st with activeBlanketEnabled := false } now).1 =
      (if isInPeakHours st.peakHoursStart st.peakHoursEnd (now % 86400) = true
       then st.peakIntervalMinutes * 60 else st.offpeakIntervalMinutes * 60) := by
  have ha2 : anyActiveData st.data = true := (anyActiveData_eq_true_iff st.data).mpr ha
  constructor
  · rw [(calcInterval_active st now ha2 he).1]
    cases st.lastCommandTime <;> simp [progressiveActiveInterval]
  · by_cases h : isInPeakHours st.peakHoursStart st.peakHoursEnd (now % 86400) = true <;>
      cases hap : st.activePollingEnabled <;>
        simp [calculateUpdateInterval, ha2, hap, h]

/-- C4: on a successful refresh cycle the fresh map holds, per device,
the newly fetched status, or the prior cached value when that device's
fetch failed; a device failing with no prior cached value makes the
whole cycle fail, reported as an update failure with the coordinator's
last-good snapshot (state) left untouched. -/
theorem c4_cache_retention (st : CoordState) (devices : List Device)
    (fetch : String → Except Unit Status) (now : Nat)
    (hnd : (devices.map Device.id).Nodup) :
    (∀ d ∈ devices, ∀ s, fetch d.id = Except.error () →
       alookup st.data d.id = some s →
       ∀ res, collectData st.data fetch devices [] = Except.ok res →
         alookup res d.id = some s) ∧
    (∀ d ∈ devices, ∀ s, fetch d.id = Except.ok s →
       ∀ res, collectData st.data fetch devices [] = Except.ok res →
         alookup res d.id = some s) ∧
    ((∃ d ∈ devices, fetch d.id = Except.error () ∧ alookup st.data d.id = none) →
       refreshCycle st devices fetch now = (st, false)) := by
  refine ⟨?_, ?_, ?_⟩
  · intro d hd s hf hc res hres
    have := collectData_ok_lookup_mem st.data fetch devices [] res d hnd hd hres
    rw [hf] at this
    rw [this, hc]
  · intro d hd s hf res hres
    have := collectData_ok_lookup_mem st.data fetch devices [] res d hnd hd hres
    rw [hf] at this
    exact this
  · rintro ⟨d, hd, hf, hc⟩
    obtain ⟨e, he⟩ := collectData_err st.data fetch devices [] d hd hf hc
    simp [refreshCycle, he]

/-- C6 counterexample: with no command recorded beforehand, calling
`notify_command_sent()` and immediately evaluating the tier on a state
with an active cached blanket and aggressive polling enabled yields the
15-second interval, not the claimed 60-second default — the call itself
records the timestamp, so an elapsed-time reference does exist. -/
theorem c6_counterexample :
    sampleCoord.lastCommandTime = none ∧
    (calculateUpdateInterval (notifyCommandSent sampleCoord 1000).1 1000).1 = 15 ∧
    (15 : Nat) ≠ 60 := by decide

/-- C6 (amended): a tier evaluation with no recorded command yields the
60-second default; `notify_command_sent()` sets the last-command
timestamp to the current time, so an evaluation immediately after it
(zero elapsed time) yields the 15-second interval instead. -/
theorem c6_no_command_default (st : CoordState) (now : Nat)
    (hn : st.lastCommandTime = none)
    (ha : ∃ p ∈ st.data, p.2.timer > 0 ∨ p.2.bodySetting > 0 ∨ p.2.feetSetting > 0)
    (he : st.activeBlanketEnabled = true) :
    (calculateUpdateInterval st now).1 = 60 ∧
    (notifyCommandSent st now).1.lastCommandTime = some now ∧
    (calculateUpdateInterval (notifyCommandSent st now).1 now).1 = 15 := by
  have ha2 : anyActiveData st.data = true := (anyActiveData_eq_true_iff st.data).mpr ha
  refine ⟨?_, rfl, ?_⟩
  · rw [(calcInterval_active st now ha2 he).1, hn]
    rfl
  · have ha3 : anyActiveData ((notifyCommandSent st now).1).data = true := ha2
    have he3 : ((notifyCommandSent st now).1).activeBlanketEnabled = true := he
    rw [(calcInterval_active _ now ha3 he3).1]
    simp [notifyCommandSent, progressiveActiveInterval]

/-- C9: a tier evaluation that finds no cached status active while the
active-polling flag is set resets the last-command timestamp to absent
and clears the flag, so that evaluation and every subsequent one with
no active device pick the PEAK or OFFPEAK interval purely from the
wall-clock time. -/
theorem c9_leaving_active_resets (st : CoordState) (now : Nat)
    (hp : st.activePollingEnabled = true)
    (ha : anyActiveData st.data = false) :
    (calculateUpdateInterval st now).2.lastCommandTime = none ∧
    (calculateUpdateInterval st now).2.activePollingEnabled = false ∧
    (calculateUpdateInterval st now).1 =
      (if isInPeakHours st.peakHoursStart st.peakHoursEnd (now % 86400) = true
       then st.peakIntervalMinutes * 60 else st.offpeakIntervalMinutes * 60) ∧
    (∀ d2 now2, anyActiveData d2 = false →
       (calculateUpdateInterval
          { (calculateUpdateInterval st now).2 with data := d2 } now2).1 =
         (if isInPeakHours st.peakHoursStart st.peakHoursEnd (now2 % 86400) = true
          then st.peakIntervalMinutes * 60 else st.offpeakIntervalMinutes * 60)) := by
  have h1 : calculateUpdateInterval st now =
      ((if isInPeakHours st.peakHoursStart st.peakHoursEnd (now % 86400) = true
        then st.peakIntervalMinutes * 60 else st.offpeakIntervalMinutes * 60),
       { st with activePollingEnabled := false, lastCommandTime := none }) := by
    by_cases h : isInPeakHours st.peakHoursStart st.peakHoursEnd (now % 86400) = true <;>
      simp [calculateUpdateInterval, ha, hp, h]
  rw [h1]
  refine ⟨rfl, rfl, rfl, ?_⟩
  intro d2 now2 ha2
  rw [calcInterval_inactive _ now2 ha2 rfl]

/-- C10: `notify_command_sent()` only records the current time as the
last-command timestamp and schedules a refresh; the cached status map,
the configured peak window and interval options, the active-polling
flag, and the currently applied update interval are unchanged by the
call itself. -/
theorem c10_notify_frame (st : CoordState) (now : Nat) :
    (notifyCommandSent st now).1.lastCommandTime = some now ∧
    (notifyCommandSent st now).2 = true ∧
    (notifyCommandSent st now).1.data = st.data ∧
    (notifyCommandSent st now).1.peakHoursStart = st.peakHoursStart ∧
    (notifyCommandSent st now).1.peakHoursEnd = st.peakHoursEnd ∧
    (notifyCommandSent st now).1.offpeakIntervalMinutes = st.offpeakIntervalMinutes ∧
    (notifyCommandSent st now).1.peakIntervalMinutes = st.peakIntervalMinutes ∧
    (notifyCommandSent st now).1.activeBlanketEnabled = st.activeBlanketEnabled ∧
    (notifyCommandSent st now).1.activePollingEnabled = st.activePollingEnabled ∧
    (notifyCommandSent st now).1.updateInterval = st.updateInterval :=
  ⟨rfl, rfl, rfl, rfl, rfl, rfl, rfl, rfl, rfl, rfl⟩

/-- C3 witness: the sample coordinator (active cached device, no
command recorded) gets the 60-second default, and with aggressive
polling disabled it falls to the peak tier (00:16:40 ≡ 1000s of day
lies in the overnight 20:00–08:00 window, giving 5 min = 300s). -/
theorem c3_witness :
    (∃ p ∈ sampleCoord.data,
        p.2.timer > 0 ∨ p.2.bodySetting > 0 ∨ p.2.feetSetting > 0) ∧
    sampleCoord.activeBlanketEnabled = true ∧
    (calculateUpdateInterval sampleCoord 1000).1 = 60 ∧
    (calculateUpdateInterval { sampleCoord with activeBlanketEnabled := false } 1000).1 = 300 := by
  refine ⟨by decide, by decide, ?_, ?_⟩
  · have h := (c3_active_tier_intervals sampleCoord 1000 (by decide) (by decide)).1
    rw [h]; decide
  · have h := (c3_active_tier_intervals sampleCoord 1000 (by decide) (by decide)).2
    rw [h]; decide

/-- C4 witness: one device whose fetch fails but is cached, one whose
fetch succeeds. -/
theorem c4_witness :
    (([sampleDevice, sampleDevice2].map Device.id).Nodup) ∧
    ((∀ d ∈ [sampleDevice, sampleDevice2], ∀ s, fetchSample d.id = Except.error () →
        alookup sampleCoord.data d.id = some s →
        ∀ res, collectData sampleCoord.data fetchSample [sampleDevice, sampleDevice2] [] =
            Except.ok res →
          alookup res d.id = some s) ∧
     (∀ d ∈ [sampleDevice, sampleDevice2], ∀ s, fetchSample d.id = Except.ok s →
        ∀ res, collectData sampleCoord.data fetchSample [sampleDevice, sampleDevice2] [] =
            Except.ok res →
          alookup res d.id = some s) ∧
     ((∃ d ∈ [sampleDevice, sampleDevice2], fetchSample d.id = Except.error () ∧
          alookup sampleCoord.data d.id = none) →
        refreshCycle sampleCoord [sampleDevice, sampleDevice2] fetchSample 1000 =
          (sampleCoord, false))) :=
  ⟨by decide,
   c4_cache_retention sampleCoord [sampleDevice, sampleDevice2] fetchSample 1000 (by decide)⟩

/-- C6 witness: the amended behaviour at the sample coordinator. -/
theorem c6_witness :
    sampleCoord.lastCommandTime = none ∧
    (∃ p ∈ sampleCoord.data,
        p.2.timer > 0 ∨ p.2.bodySetting > 0 ∨ p.2.feetSetting > 0) ∧
    sampleCoord.activeBlanketEnabled = true ∧
    ((calculateUpdateInterval sampleCoord 1000).1 = 60 ∧
     (notifyCommandSent sampleCoord 1000).1.lastCommandTime = some 1000 ∧
     (calculateUpdateInterval (notifyCommandSent sampleCoord 1000).1 1000).1 = 15) :=
  ⟨rfl, by decide, rfl, c6_no_command_default sampleCoord 1000 rfl (by decide) rfl⟩

/-- C9 witness: the coordinator that entered active polling and whose
cached status went idle. -/
theorem c9_witness :
    sampleCoordIdleFlag.activePollingEnabled = true ∧
    anyActiveData sampleCoordIdleFlag.data = false ∧
    ((calculateUpdateInterval sampleCoordIdleFlag 1000).2.lastCommandTime = none ∧
     (calculateUpdateInterval sampleCoordIdleFlag 1000).2.activePollingEnabled = false ∧
     (calculateUpdateInterval sampleCoordIdleFlag 1000).1 =
       (if isInPeakHours sampleCoordIdleFlag.peakHoursStart sampleCoordIdleFlag.peakHoursEnd
            (1000 % 86400) = true
        then sampleCoordIdleFlag.peakIntervalMinutes * 60
        else sampleCoordIdleFlag.offpeakIntervalMinutes * 60) ∧
     (∀ d2 now2, anyActiveData d2 = false →
        (calculateUpdateInterval
           { (calculateUpdateInterval sampleCoordIdleFlag 1000).2 with data := d2 } now2).1 =
          (if isInPeakHours sampleCoordIdleFlag.peakHoursStart sampleCoordIdleFlag.peakHoursEnd
               (now2 % 86400) = true
           then sampleCoordIdleFlag.peakIntervalMinutes * 60
           else sampleCoordIdleFlag.offpeakIntervalMinutes * 60))) :=
  ⟨rfl, by decide, c9_leaving_active_resets sampleCoordIdleFlag 1000 rfl (by decide)⟩

/-- C7 counterexample: a cycle that fails (one device, fetch raises, no
prior cached value for it) leaves the applied interval at its previous
600s even though a recomputation at that moment would choose 15s — the
interval is *not* recomputed at the end of a failed cycle, contradicting
the claim's "including a failed one". -/
theorem c7_counterexample :
    refreshCycle sampleCoordCmd [sampleDevice2] fetchFailAll 1000 = (sampleCoordCmd, false) ∧
    (refreshCycle sampleCoordCmd [sampleDevice2] fetchFailAll 1000).1.updateInterval = 600 ∧
    (calculateUpdateInterval sampleCoordCmd 1000).1 = 15 ∧
    (15 : Nat) ≠ 600 := by decide

/-- C7 (amended): the next interval is recomputed and applied exactly
once per *successful* refresh cycle, at the end, after all devices are
processed, and never mid-cycle (the applied interval equals the single
recomputation on the pre-cycle state); a failed cycle raises
`UpdateFailed` before the recomputation, leaving the whole coordinator
state — including the applied interval — unchanged. -/
theorem c7_interval_recompute_once (st : CoordState) (devices : List Device)
    (fetch : String → Except Unit Status) (now : Nat) :
    (∀ newData, collectData st.data fetch devices [] = Except.ok newData →
       refreshCycle st devices fetch now =
         ({ (calculateUpdateInterval st now).2 with
              data := newData,
              updateInterval := (calculateUpdateInterval st now).1 }, true)) ∧
    (∀ e, collectData st.data fetch devices [] = Except.error e →
       refreshCycle st devices fetch now = (st, false)) := by
  constructor
  · intro newData h
    rcases hcalc : calculateUpdateInterval st now with ⟨ival, st1⟩
    simp only [refreshCycle, h, hcalc]
    by_cases hne : ival = st1.updateInterval
    · subst hne
      cases st1
      simp
    · simp [hne]
  · intro e h
    simp [refreshCycle, h]

/-- C7 witness: the success branch at a concrete input (the sample
device is cached, `fetchSample` fails for it, so the cached value is
reused and the cycle succeeds), and the failure branch at the same
state with an uncached device. -/
theorem c7_witness :
    (∀ newData, collectData sampleCoordCmd.data fetchSample [sampleDevice] [] =
        Except.ok newData →
      refreshCycle sampleCoordCmd [sampleDevice] fetchSample 1000 =
        ({ (calculateUpdateInterval sampleCoordCmd 1000).2 with
             data := newData,
             updateInterval := (calculateUpdateInterval sampleCoordCmd 1000).1 }, true)) ∧
    (∀ e, collectData sampleCoordCmd.data fetchSample [sampleDevice] [] = Except.error e →
       refreshCycle sampleCoordCmd [sampleDevice] fetchSample 1000 = (sampleCoordCmd, false)) :=
  c7_interval_recompute_once sampleCoordCmd [sampleDevice] fetchSample 1000

/-- C8: a token persisted via the save path and reloaded via the load
path yields an identical record (all eight fields); a missing token
file, an unparseable one, or one whose contents do not decode to a
token leave the client unauthenticated (token absent) without raising
(the load path is total and merely marks the load attempted). -/
theorem c8_token_roundtrip (t : Token) (st : ClientState)
    (hl : st.tokenLoaded = false) (ht : st.token = none) :
    tokenFromJson (tokenToJson t) = some t ∧
    (loadTokenSt { st with file := (updateTokenSt st t).file }).token = some t ∧
    (st.file = none →
       loadTokenSt st = { st with tokenLoaded := true } ∧ (loadTokenSt st).token = none) ∧
    (st.file = some none →
       loadTokenSt st = { st with tokenLoaded := true } ∧ (loadTokenSt st).token = none) ∧
    (∀ l, st.file = some (some l) → tokenFromJson l = none →
       loadTokenSt st = { st with tokenLoaded := true } ∧ (loadTokenSt st).token = none) := by
  have h1 : tokenFromJson (tokenToJson t) = some t := rfl
  refine ⟨h1, ?_, ?_, ?_, ?_⟩
  · simp [loadTokenSt, updateTokenSt, hl, h1]
  · intro hf; simp [loadTokenSt, hl, hf, ht]
  · intro hf; simp [loadTokenSt, hl, hf, ht]
  · intro l hf htf; simp [loadTokenSt, hl, hf, htf, ht]

/-- C8 witness: the sample token through a fresh client. -/
theorem c8_witness :
    emptyClient.tokenLoaded = false ∧ emptyClient.token = none ∧
    (tokenFromJson (tokenToJson sampleToken) = some sampleToken ∧
     (loadTokenSt { emptyClient with
         file := (updateTokenSt emptyClient sampleToken).file }).token = some sampleToken ∧
     (emptyClient.file = none →
        loadTokenSt emptyClient = { emptyClient with tokenLoaded := true } ∧
        (loadTokenSt emptyClient).token = none) ∧
     (emptyClient.file = some none →
        loadTokenSt emptyClient = { emptyClient with tokenLoaded := true } ∧
        (loadTokenSt emptyClient).token = none) ∧
     (∀ l, emptyClient.file = some (some l) → tokenFromJson l = none →
        loadTokenSt emptyClient = { emptyClient with tokenLoaded := true } ∧
        (loadTokenSt emptyClient).token = none)) :=
  ⟨rfl, rfl, c8_token_roundtrip sampleToken emptyClient rfl rfl⟩

/-- C5 counterexample: a client with a stored token whose expiry has
passed (under a clock/parse reading its `expires` field as instant 0,
with the wall clock at 1000) performs *no* password grant in
`authenticate` — the code never consults the expiry there, so
"present but expired" does not trigger a password grant as the claim
requires; the stale token is simply kept. -/
theorem c5_counterexample :
    (loadTokenSt sampleFileClient).token = some sampleToken ∧
    (fun _ : String => some 0) sampleToken.expires = some (0 : Nat) ∧ (0 : Nat) < 1000 ∧
    (authenticateSt sampleFileClient "u@example.com" "pw" ⟨200, sampleToken2⟩).2.2 = false ∧
    (authenticateSt sampleFileClient "u@example.com" "pw" ⟨200, sampleToken2⟩).1.token =
      some sampleToken := by decide

/-- C5 (amended): `authenticate` first loads any stored token; if a
stored token is present — whether expired or not — it treats the
session as already authenticated and performs no password-grant
request (expiry is deferred to per-request checks); only when no token
is present does it perform a password grant, for which a 401 response
raises `AuthenticationError` (fatal, not retried) and any other
4xx/5xx response raises the generic error. -/
theorem c5_authenticate_behavior (st : ClientState) (u p : String) (env : GrantEnv) :
    (∀ t, (loadTokenSt { st with username := some u, password := some p }).token = some t →
       authenticateSt st u p env =
         (loadTokenSt { st with username := some u, password := some p },
          AuthOutcome.ok, false)) ∧
    ((loadTokenSt { st with username := some u, password := some p }).token = none →
       ((env.status = 401 →
           authenticateSt st u p env =
             (loadTokenSt { st with username := some u, password := some p },
              AuthOutcome.authError, true)) ∧
        (400 ≤ env.status → env.status ≠ 401 →
           authenticateSt st u p env =
             (loadTokenSt { st with username := some u, password := some p },
              AuthOutcome.genericError, true)) ∧
        (env.status < 400 →
           authenticateSt st u p env =
             (updateTokenSt (loadTokenSt { st with username := some u, password := some p })
                env.tok,
              AuthOutcome.ok, true)))) := by
  constructor
  · intro t hT
    simp [authenticateSt, hT]
  · intro hT
    refine ⟨?_, ?_, ?_⟩
    · intro h
      simp [authenticateSt, hT, doAuthenticateSt, h]
    · intro h4 h401
      simp [authenticateSt, hT, doAuthenticateSt, h4, h401]
    · intro hlt
      have h401 : ¬ (env.status = 401) := by omega
      have h4 : ¬ (400 ≤ env.status) := by omega
      simp [authenticateSt, hT, doAuthenticateSt, h401, h4]

/-- C5 witness: the amended behaviour at a fresh tokenless client and a
successful grant. -/
theorem c5_witness :
    ((∀ t, (loadTokenSt { emptyClient with
              username := some "u@example.com", password := some "pw" }).token = some t →
        authenticateSt emptyClient "u@example.com" "pw" ⟨200, sampleToken⟩ =
          (loadTokenSt { emptyClient with
              username := some "u@example.com", password := some "pw" },
           AuthOutcome.ok, false)) ∧
     ((loadTokenSt { emptyClient with
          username := some "u@example.com", password := some "pw" }).token = none →
        (((200 : Nat) = 401 →
            authenticateSt emptyClient "u@example.com" "pw" ⟨200, sampleToken⟩ =
              (loadTokenSt { emptyClient with
                  username := some "u@example.com", password := some "pw" },
               AuthOutcome.authError, true)) ∧
         ((400 : Nat) ≤ 200 → (200 : Nat) ≠ 401 →
            authenticateSt emptyClient "u@example.com" "pw" ⟨200, sampleToken⟩ =
              (loadTokenSt { emptyClient with
                  username := some "u@example.com", password := some "pw" },
               AuthOutcome.genericError, true)) ∧
         ((200 : Nat) < 400 →
            authenticateSt emptyClient "u@example.com" "pw" ⟨200, sampleToken⟩ =
              (updateTokenSt (loadTokenSt { emptyClient with
                  username := some "u@example.com", password := some "pw" }) sampleToken,
               AuthOutcome.ok, true))))) :=
  c5_authenticate_behavior emptyClient "u@example.com" "pw" ⟨200, sampleToken⟩

/-- A client whose lazy token load already happened is unchanged by
`_load_token`. -/
theorem loadTokenSt_loaded (st : ClientState) (h : st.tokenLoaded = true) :
    loadTokenSt st = st := by
  simp [loadTokenSt, h]

/-- C1 counterexample: initial request 401, locally expired token
(expiry instant 0 under the given parse, wall clock 1000), refresh
grant succeeds, and the retried request *again* returns 401.  The call
returns that 401 response as-is, raises nothing, and keeps the freshly
refreshed token — the claim's "if the retried request fails again, the
stored token is cleared and AuthenticationError is raised" does not
hold. -/
theorem c1_counterexample :
    makeAuthenticatedRequest (fun _ => some 0) 1000 sampleClient
        ⟨401, 200, sampleToken2, 200, sampleToken2, 401, 200⟩ =
      (updateTokenSt sampleClient sampleToken2,
       [Ev.initialReq, Ev.refreshGrant, Ev.retryReq],
       ReqOutcome.resp 401) ∧
    (updateTokenSt sampleClient sampleToken2).token = some sampleToken2 ∧
    ReqOutcome.resp 401 ≠ ReqOutcome.authError := by decide

/-- C1 (amended): for an authenticated request whose first response is
a 401 — with the token loaded and present: if the locally stored
expiry has passed, exactly one refresh grant is attempted and, on its
success, the original request is retried exactly once and its response
returned as-is (even if it is itself an error), with no token clearing;
if the token was not locally expired, or the refresh grant fails,
exactly one full re-authentication with the stored username/password
is attempted and the request retried once, its response again returned
as-is; if recovery is impossible (no stored credentials, or the
re-authentication grant fails), the stored token is cleared and
`AuthenticationError` is raised.  A non-401 first response is returned
directly. -/
theorem c1_auth_request_recovery (parseT : String → Option Nat) (now : Nat)
    (st : ClientState) (env : NetEnv) (tok : Token)
    (hl : st.tokenLoaded = true) (hT : st.token = some tok) :
    (env.initialStatus ≠ 401 →
       makeAuthenticatedRequest parseT now st env =
         (st, [Ev.initialReq], ReqOutcome.resp env.initialStatus)) ∧
    (env.initialStatus = 401 →
       (∀ e, parseT tok.expires = some e → e < now →
          (env.refreshStatus = 200 →
             makeAuthenticatedRequest parseT now st env =
               (updateTokenSt st env.refreshTok,
                [Ev.initialReq, Ev.refreshGrant, Ev.retryReq],
                ReqOutcome.resp env.retryAfterRefreshStatus)) ∧
          (env.refreshStatus ≠ 200 → credsPresent st = true →
             (env.reauthStatus < 400 →
                makeAuthenticatedRequest parseT now st env =
                  (updateTokenSt st env.reauthTok,
                   [Ev.initialReq, Ev.refreshGrant, Ev.passwordGrant, Ev.retryReq],
                   ReqOutcome.resp env.retryAfterReauthStatus)) ∧
             (400 ≤ env.reauthStatus →
                makeAuthenticatedRequest parseT now st env =
                  ({ st with token := none },
                   [Ev.initialReq, Ev.refreshGrant, Ev.passwordGrant],
                   ReqOutcome.authError))) ∧
          (env.refreshStatus ≠ 200 → credsPresent st = false →
             makeAuthenticatedRequest parseT now st env =
               ({ st with token := none }, [Ev.initialReq, Ev.refreshGrant],
                ReqOutcome.authError))) ∧
       (∀ e, parseT tok.expires = some e → ¬ e < now →
          (credsPresent st = true →
             (env.reauthStatus < 400 →
                makeAuthenticatedRequest parseT now st env =
                  (updateTokenSt st env.reauthTok,
                   [Ev.initialReq, Ev.passwordGrant, Ev.retryReq],
                   ReqOutcome.resp env.retryAfterReauthStatus)) ∧
             (400 ≤ env.reauthStatus →
                makeAuthenticatedRequest parseT now st env =
                  ({ st with token := none }, [Ev.initialReq, Ev.passwordGrant],
                   ReqOutcome.authError))) ∧
          (credsPresent st = false →
             makeAuthenticatedRequest parseT now st env =
               ({ st with token := none }, [Ev.initialReq], ReqOutcome.authError)))) := by
  have hload : loadTokenSt st = st := loadTokenSt_loaded st hl
  constructor
  · intro h
    simp [makeAuthenticatedRequest, hload, hT, h]
  · intro h401
    constructor
    · intro e hpe hlt
      refine ⟨?_, ?_, ?_⟩
      · intro hrs
        simp [makeAuthenticatedRequest, hload, hT, h401, hpe, hlt, hrs]
      · intro hrs hcp
        constructor
        · intro hra
          have hra1 : ¬ (env.reauthStatus = 401) := by omega
          have hra2 : ¬ (400 ≤ env.reauthStatus) := by omega
          simp [makeAuthenticatedRequest, hload, hT, h401, hpe, hlt, hrs, hcp,
                doAuthenticateSt, hra1, hra2]
        · intro hra
          by_cases hra1 : env.reauthStatus = 401 <;>
            simp [makeAuthenticatedRequest, hload, hT, h401, hpe, hlt, hrs, hcp,
                  doAuthenticateSt, hra, hra1]
      · intro hrs hcp
        simp [makeAuthenticatedRequest, hload, hT, h401, hpe, hlt, hrs, hcp]
    · intro e hpe hnlt
      constructor
      · intro hcp
        constructor
        · intro hra
          have hra1 : ¬ (env.reauthStatus = 401) := by omega
          have hra2 : ¬ (400 ≤ env.reauthStatus) := by omega
          simp [makeAuthenticatedRequest, hload, hT, h401, hpe, hnlt, hcp,
                doAuthenticateSt, hra1, hra2]
        · intro hra
          by_cases hra1 : env.reauthStatus = 401 <;>
            simp [makeAuthenticatedRequest, hload, hT, h401, hpe, hnlt, hcp,
                  doAuthenticateSt, hra, hra1]
      · intro hcp
        simp [makeAuthenticatedRequest, hload, hT, h401, hpe, hnlt, hcp]

/-- C1 witness: the expired-token, refresh-succeeds path at concrete
inputs — one refresh grant, one retry, retried response returned. -/
theorem c1_witness :
    sampleClient.tokenLoaded = true ∧ sampleClient.token = some sampleToken ∧
    makeAuthenticatedRequest (fun _ => some 0) 1000 sampleClient
        ⟨401, 200, sampleToken2, 200, sampleToken2, 204, 200⟩ =
      (updateTokenSt sampleClient sampleToken2,
       [Ev.initialReq, Ev.refreshGrant, Ev.retryReq], ReqOutcome.resp 204) := by
  refine ⟨rfl, rfl, ?_⟩
  have h := (c1_auth_request_recovery (fun _ => some 0) 1000 sampleClient
      ⟨401, 200, sampleToken2, 200, sampleToken2, 204, 200⟩ sampleToken rfl rfl).2 rfl
  exact (h.1 0 rfl (by omega)).1 rfl

end Beurer
